import Mathlib

/-!
Verification development for the bbl-backned backend.

The definitions below are a shallow embedding of the decision logic in
`src/app/services/game_engine.py` (outcome resolution and the count/outs/score
state machine) and of the parameter-version store in
`src/app/services/logging_service.py` together with its HTTP layer in
`src/app/routers/logging.py`.  Python floats are embedded as rationals, the
single `random.random()` draw of a resolution call is passed in explicitly as
a rational argument, and the database-backed version store is embedded as a
list of records; an operation that raises `HTTPException(status)` is embedded
as `Except.error status`.
-/

namespace BBL

/-- Pitch kinds, from `schemas/game.py` `PitchType`. -/
inductive PitchType where
  | fastball
  | changeup
  | slider
  | forkball
deriving DecidableEq, BEq, Repr

/-- Guess kinds, from `schemas/game.py` `GuessType`; `any` matches every pitch kind. -/
inductive GuessType where
  | fastball
  | changeup
  | slider
  | forkball
  | any
deriving DecidableEq, BEq, Repr

/-- The `.value` string of a `PitchType` enum member. -/
def pitchTypeValue : PitchType → String
  | .fastball => "fastball"
  | .changeup => "changeup"
  | .slider => "slider"
  | .forkball => "forkball"

/-- The `.value` string of a `GuessType` enum member. -/
def guessTypeValue : GuessType → String
  | .fastball => "fastball"
  | .changeup => "changeup"
  | .slider => "slider"
  | .forkball => "forkball"
  | .any => "any"

/-- A pitch: kind plus target zone (1-9 strike region, 10-17 ball region). -/
structure Pitch where
  type : PitchType
  zone : ℤ
deriving DecidableEq, Repr

/-- A batter guess: kind plus guessed zone. -/
structure Guess where
  type : GuessType
  zone : ℤ
deriving DecidableEq, Repr

/-- `GameEngine._get_ball_swing_chance`: swing probability against a
ball-region pitch.  Base 0.2, scaled by zone closeness, capped at 0.6. -/
def get_ball_swing_chance (pitch : Pitch) (_guess : Guess) : ℚ :=
  let base_chance : ℚ := 2/10
  let base_chance :=
    if pitch.zone = 10 ∨ pitch.zone = 11 then base_chance * (13/10)
    else if pitch.zone = 12 ∨ pitch.zone = 13 then base_chance * (11/10)
    else if 14 ≤ pitch.zone then base_chance * (5/10)
    else base_chance
  min base_chance (6/10)

/-- `GameEngine._calculate_hit_chance`: base 0.1, plus 0.4 on a zone match,
0.3 on a kind match, 0.2 when both match, 0.1 extra for a changeup kind
match; capped at 0.9. -/
def calculate_hit_chance (zone_match type_match : Bool) (pitch : Pitch) (_guess : Guess) : ℚ :=
  let base_chance : ℚ := 1/10
  let base_chance := if zone_match then base_chance + 4/10 else base_chance
  let base_chance := if type_match then base_chance + 3/10 else base_chance
  let base_chance := if zone_match && type_match then base_chance + 2/10 else base_chance
  let base_chance :=
    if pitch.type == PitchType.changeup && type_match then base_chance + 1/10
    else base_chance
  min base_chance (9/10)

/-- The zone-match flag computed in `GameEngine.calculate_result`:
`actual_pitch.zone == batter_guess.zone`. -/
def zoneMatch (actual_pitch : Pitch) (batter_guess : Guess) : Bool :=
  actual_pitch.zone == batter_guess.zone

/-- The kind-match flag computed in `GameEngine.calculate_result`:
the guess is `any`, or the two enum `.value` strings agree. -/
def typeMatch (actual_pitch : Pitch) (batter_guess : Guess) : Bool :=
  batter_guess.type == GuessType.any
    || pitchTypeValue actual_pitch.type == guessTypeValue batter_guess.type

/-- The hit probability used for a strike-zone pitch, as composed in
`GameEngine.calculate_result` from `_calculate_hit_chance`. -/
def hitChance (actual_pitch : Pitch) (batter_guess : Guess) : ℚ :=
  calculate_hit_chance (zoneMatch actual_pitch batter_guess)
    (typeMatch actual_pitch batter_guess) actual_pitch batter_guess

/-- `GameEngine.calculate_result`.  The Python function calls
`random.random()` exactly once on whichever branch runs; that draw is the
explicit argument `r`.  Returns the `(result_type, is_ball)` pair. -/
def calculate_result (actual_pitch : Pitch) (batter_guess : Guess) (r : ℚ) : String × Bool :=
  let is_strike := actual_pitch.zone ≤ 9
  if ¬ is_strike then
    let swing_chance := get_ball_swing_chance actual_pitch batter_guess
    if r < swing_chance then ("swing_miss", false)
    else ("ball", true)
  else
    let hit_chance := hitChance actual_pitch batter_guess
    if r < hit_chance then ("hit", false)
    else if r < hit_chance + 2/10 then ("foul", false)
    else ("strike", false)

/-- The game-state snapshot read by `GameEngine.update_game_state`
(fields of the persisted game record). -/
structure GameState where
  balls : ℕ
  strikes : ℕ
  outs : ℕ
  inning : ℕ
  player_score : ℕ
  cpu_score : ℕ
  is_player_pitching : Bool
deriving DecidableEq, Repr

/-- The dict returned by `GameEngine.update_game_state`. -/
structure StateUpdate where
  balls : ℕ
  strikes : ℕ
  outs : ℕ
  inning : ℕ
  score_player : ℕ
  score_cpu : ℕ
deriving DecidableEq, Repr

/-- `GameEngine.update_game_state`: the count/outs/score transition applied
after a resolved turn.  Each branch below builds the dict the Python code
returns after its in-place updates of the copied fields. -/
def update_game_state (s : GameState) (result_type : String) (is_ball : Bool) : StateUpdate :=
  if is_ball then
    if s.balls + 1 ≥ 4 then
      { balls := 0, strikes := 0, outs := s.outs, inning := s.inning,
        score_player := if s.is_player_pitching then s.player_score else s.player_score + 1,
        score_cpu := if s.is_player_pitching then s.cpu_score + 1 else s.cpu_score }
    else
      { balls := s.balls + 1, strikes := s.strikes, outs := s.outs, inning := s.inning,
        score_player := s.player_score, score_cpu := s.cpu_score }
  else if result_type = "hit" then
    { balls := 0, strikes := 0, outs := s.outs, inning := s.inning,
      score_player := if s.is_player_pitching then s.player_score else s.player_score + 1,
      score_cpu := if s.is_player_pitching then s.cpu_score + 1 else s.cpu_score }
  else if result_type = "foul" then
    if s.strikes < 2 then
      { balls := s.balls, strikes := s.strikes + 1, outs := s.outs, inning := s.inning,
        score_player := s.player_score, score_cpu := s.cpu_score }
    else
      { balls := s.balls, strikes := s.strikes, outs := s.outs, inning := s.inning,
        score_player := s.player_score, score_cpu := s.cpu_score }
  else if result_type = "strike" ∨ result_type = "swing_miss" then
    if s.strikes + 1 ≥ 3 then
      { balls := 0, strikes := 0, outs := s.outs + 1, inning := s.inning,
        score_player := s.player_score, score_cpu := s.cpu_score }
    else
      { balls := s.balls, strikes := s.strikes + 1, outs := s.outs, inning := s.inning,
        score_player := s.player_score, score_cpu := s.cpu_score }
  else
    { balls := s.balls, strikes := s.strikes, outs := s.outs, inning := s.inning,
      score_player := s.player_score, score_cpu := s.cpu_score }

/-- A JSON value as stored in the `parameters` column and in override maps. -/
inductive Json where
  | num (q : ℚ)
  | str (s : String)
  | obj (fields : List (String × Json))

/-- Python truthiness of an embedded JSON value (a dict is falsy exactly
when empty, a number when zero, a string when empty). -/
def jsonTruthy : Json → Bool
  | .num q => q != 0
  | .str s => s != ""
  | .obj fields => !fields.isEmpty

/-- A row of the `parameter_versions` table (`models/logging.py`
`ParameterVersion`); `version` is the primary key. -/
structure ParamVersion where
  version : String
  parameters : Json
  description : String
  is_active : Bool
  created_by : String

/-- The parameter-version store: the rows of `parameter_versions`.  The
primary-key constraint on `version` is carried as a `Nodup` hypothesis where
a theorem needs it. -/
abbrev Store := List ParamVersion

/-- `ParameterManager.get_default_parameters`: the hard-coded default tree. -/
def get_default_parameters : Json :=
  Json.obj
    [("batting", Json.obj
        [("power_base", Json.num 75), ("contact_base", Json.num 70),
         ("speed_base", Json.num 65), ("power_variance", Json.num 15),
         ("contact_variance", Json.num 12), ("speed_variance", Json.num 10)]),
     ("pitching", Json.obj
        [("velocity_base", Json.num 80), ("control_base", Json.num 75),
         ("stamina_base", Json.num 70), ("velocity_variance", Json.num 12),
         ("control_variance", Json.num 15), ("stamina_variance", Json.num 18)]),
     ("game_mechanics", Json.obj
        [("hit_probability_base", Json.num (25/100)),
         ("homerun_probability_base", Json.num (3/100)),
         ("strikeout_probability_base", Json.num (22/100)),
         ("walk_probability_base", Json.num (8/100))])]

/-- `ParameterManager.get_parameters` for an explicit version id: the first
row whose `version` matches, falling back to the hard-coded defaults when no
row matches.  (The version-omitted path, which consults the active version,
is not needed by any theorem below.) -/
def get_parameters (db : Store) (version : String) : Json :=
  match db.find? (fun pv => pv.version == version) with
  | some pv => pv.parameters
  | none => get_default_parameters

/-- `routers/logging.py` `get_parameters_by_version`: fetch the parameters of
an explicit version id; 404 only when the returned dict is falsy. -/
def get_parameters_by_version (db : Store) (version : String) : Except Nat (String × Json) :=
  let parameters := get_parameters db version
  if !(jsonTruthy parameters) then Except.error 404
  else Except.ok (version, parameters)

/-- `routers/logging.py` `activate_version`: one bulk update deactivates the
rows that are active, a second bulk update activates the rows whose `version`
matches and reports how many rows it matched; 404 when none matched.  On the
404 path the session is closed without commit, so the transaction rolls back
and the store is unchanged — hence the error carries no store. -/
def activate_version (db : Store) (version : String) : Except Nat Store :=
  let db1 := db.map (fun pv => if pv.is_active then { pv with is_active := false } else pv)
  let result := (db1.filter (fun pv => pv.version == version)).length
  let db2 := db1.map (fun pv => if pv.version == version then { pv with is_active := true } else pv)
  if result = 0 then Except.error 404
  else Except.ok db2

/-- The record inserted by `ParameterManager.create_default_version`. -/
def default_version_record : ParamVersion :=
  { version := "1.0.0", parameters := get_default_parameters,
    description := "Initial default parameters", is_active := true,
    created_by := "system" }

/-- Evaluation of `update_game_state` when `is_ball` is set: the walk logic,
independent of `result_type`. -/
theorem update_game_state_is_ball (s : GameState) (result_type : String) :
    update_game_state s result_type true =
      if s.balls + 1 ≥ 4 then
        { balls := 0, strikes := 0, outs := s.outs, inning := s.inning,
          score_player := if s.is_player_pitching then s.player_score else s.player_score + 1,
          score_cpu := if s.is_player_pitching then s.cpu_score + 1 else s.cpu_score }
      else
        { balls := s.balls + 1, strikes := s.strikes, outs := s.outs, inning := s.inning,
          score_player := s.player_score, score_cpu := s.cpu_score } := rfl

/-- Evaluation of `update_game_state` on a foul. -/
theorem update_game_state_foul (s : GameState) :
    update_game_state s ("foul") false =
      if s.strikes < 2 then
        { balls := s.balls, strikes := s.strikes + 1, outs := s.outs, inning := s.inning,
          score_player := s.player_score, score_cpu := s.cpu_score }
      else
        { balls := s.balls, strikes := s.strikes, outs := s.outs, inning := s.inning,
          score_player := s.player_score, score_cpu := s.cpu_score } := rfl

/-- C5 (counterexample): a strikeout recorded with two outs drives `outs` to
3, so the returned state does not satisfy `outs ≤ 2` even though the input
state satisfies all three declared ranges. -/
theorem update_game_state_ranges_cex :
    (⟨0, 2, 2, 1, 0, 0, true⟩ : GameState).balls ≤ 3
    ∧ (⟨0, 2, 2, 1, 0, 0, true⟩ : GameState).strikes ≤ 2
    ∧ (⟨0, 2, 2, 1, 0, 0, true⟩ : GameState).outs ≤ 2
    ∧ ¬ (update_game_state ⟨0, 2, 2, 1, 0, 0, true⟩ ("strike") false).outs ≤ 2 := by
  decide

/-- C5 (amended): for every input state with `balls ≤ 3`, `strikes ≤ 2` and
`outs ≤ 2` and every `(result_type, is_ball)` outcome, the state returned by
`update_game_state` has `balls ≤ 3`, `strikes ≤ 2` and `outs ≤ 3`; `outs`
can reach 3 on a strikeout with two outs, and is only reset by the caller at
the inning boundary. -/
theorem update_game_state_ranges (s : GameState) (result_type : String) (is_ball : Bool)
    (hb : s.balls ≤ 3) (hs : s.strikes ≤ 2) (ho : s.outs ≤ 2) :
    (update_game_state s result_type is_ball).balls ≤ 3
    ∧ (update_game_state s result_type is_ball).strikes ≤ 2
    ∧ (update_game_state s result_type is_ball).outs ≤ 3 := by
  unfold update_game_state
  split_ifs <;> dsimp only <;> omega

/-- Witness for the amended C5 at a concrete in-range state. -/
theorem update_game_state_ranges_w :
    (update_game_state ⟨3, 2, 2, 1, 0, 0, true⟩ ("strike") false).balls ≤ 3
    ∧ (update_game_state ⟨3, 2, 2, 1, 0, 0, true⟩ ("strike") false).strikes ≤ 2
    ∧ (update_game_state ⟨3, 2, 2, 1, 0, 0, true⟩ ("strike") false).outs ≤ 3 :=
  update_game_state_ranges ⟨3, 2, 2, 1, 0, 0, true⟩ ("strike") false
    (by decide) (by decide) (by decide)

/-- C6: `update_game_state` never decreases either side's score, never
increases both in the same call, and increases the total by at most the one
point of that turn. -/
theorem update_game_state_scores (s : GameState) (result_type : String) (is_ball : Bool) :
    s.player_score ≤ (update_game_state s result_type is_ball).score_player
    ∧ s.cpu_score ≤ (update_game_state s result_type is_ball).score_cpu
    ∧ ¬ (s.player_score < (update_game_state s result_type is_ball).score_player
         ∧ s.cpu_score < (update_game_state s result_type is_ball).score_cpu)
    ∧ (update_game_state s result_type is_ball).score_player
        + (update_game_state s result_type is_ball).score_cpu
        ≤ s.player_score + s.cpu_score + 1 := by
  unfold update_game_state
  split_ifs <;> dsimp only <;> omega

/-- C7: a ball outcome at `balls = 3` awards exactly one point to the batting
side (the side that is not pitching) and resets the count, leaving `outs`
unchanged; at `balls < 3` it only increments `balls` and changes no score. -/
theorem update_game_state_ball (s : GameState) :
    (s.balls = 3 →
      (update_game_state s ("ball") true).balls = 0
      ∧ (update_game_state s ("ball") true).strikes = 0
      ∧ (update_game_state s ("ball") true).outs = s.outs
      ∧ (s.is_player_pitching = true →
          (update_game_state s ("ball") true).score_cpu = s.cpu_score + 1
          ∧ (update_game_state s ("ball") true).score_player = s.player_score)
      ∧ (s.is_player_pitching = false →
          (update_game_state s ("ball") true).score_player = s.player_score + 1
          ∧ (update_game_state s ("ball") true).score_cpu = s.cpu_score))
    ∧ (s.balls < 3 →
      (update_game_state s ("ball") true).balls = s.balls + 1
      ∧ (update_game_state s ("ball") true).strikes = s.strikes
      ∧ (update_game_state s ("ball") true).outs = s.outs
      ∧ (update_game_state s ("ball") true).score_player = s.player_score
      ∧ (update_game_state s ("ball") true).score_cpu = s.cpu_score) := by
  rw [update_game_state_is_ball]
  constructor
  · intro h3
    rw [if_pos (by omega)]
    refine ⟨rfl, rfl, rfl, fun hp => ?_, fun hp => ?_⟩ <;> rw [hp] <;> exact ⟨rfl, rfl⟩
  · intro hlt
    rw [if_neg (by omega)]
    exact ⟨rfl, rfl, rfl, rfl, rfl⟩

/-- Witness for C7: the spec's end-to-end walk scenario (side B batting gets
the point) and a ball at an empty count. -/
theorem update_game_state_ball_w :
    ((update_game_state ⟨3, 0, 0, 1, 0, 0, true⟩ ("ball") true).balls = 0
      ∧ (update_game_state ⟨3, 0, 0, 1, 0, 0, true⟩ ("ball") true).strikes = 0
      ∧ (update_game_state ⟨3, 0, 0, 1, 0, 0, true⟩ ("ball") true).outs = 0
      ∧ (update_game_state ⟨3, 0, 0, 1, 0, 0, true⟩ ("ball") true).score_cpu = 1
      ∧ (update_game_state ⟨3, 0, 0, 1, 0, 0, true⟩ ("ball") true).score_player = 0)
    ∧ (update_game_state ⟨0, 0, 0, 1, 0, 0, true⟩ ("ball") true).balls = 1 := by
  have h3 := (update_game_state_ball ⟨3, 0, 0, 1, 0, 0, true⟩).1 (by decide)
  have h0 := (update_game_state_ball ⟨0, 0, 0, 1, 0, 0, true⟩).2 (by decide)
  exact ⟨⟨h3.1, h3.2.1, h3.2.2.1, (h3.2.2.2.1 (by decide)).1, (h3.2.2.2.1 (by decide)).2⟩, h0.1⟩

/-- C8: a foul increments `strikes` only below two strikes and is otherwise
absorbed (protected foul); it never changes `balls`, `outs` or either score,
and `strikes ≤ 2` is preserved. -/
theorem update_game_state_foul_spec (s : GameState) :
    (update_game_state s ("foul") false).strikes
        = (if s.strikes < 2 then s.strikes + 1 else s.strikes)
    ∧ (update_game_state s ("foul") false).balls = s.balls
    ∧ (update_game_state s ("foul") false).outs = s.outs
    ∧ (update_game_state s ("foul") false).score_player = s.player_score
    ∧ (update_game_state s ("foul") false).score_cpu = s.cpu_score
    ∧ (s.strikes ≤ 2 → (update_game_state s ("foul") false).strikes ≤ 2) := by
  rw [update_game_state_foul]
  by_cases h : s.strikes < 2
  · rw [if_pos h, if_pos h]
    exact ⟨rfl, rfl, rfl, rfl, rfl, fun _ => by dsimp only; omega⟩
  · rw [if_neg h, if_neg h]
    exact ⟨rfl, rfl, rfl, rfl, rfl, fun hs => by dsimp only; omega⟩

/-- Witness for C8 at two strikes: the protected foul leaves the count at 2. -/
theorem update_game_state_foul_spec_w :
    (update_game_state ⟨1, 2, 0, 1, 0, 0, true⟩ ("foul") false).strikes
        = (if (2 : ℕ) < 2 then 2 + 1 else 2)
    ∧ (update_game_state ⟨1, 2, 0, 1, 0, 0, true⟩ ("foul") false).strikes ≤ 2 := by
  have h := update_game_state_foul_spec ⟨1, 2, 0, 1, 0, 0, true⟩
  exact ⟨h.1, h.2.2.2.2.2 (by decide)⟩

/-- C10: when `is_ball` is set, `update_game_state` ignores `result_type`
entirely and behaves exactly as for a ball; in particular a call with
`result_type` hit but `is_ball` true awards no hit point while the count is
below three balls. -/
theorem update_game_state_is_ball_precedence (s : GameState) (result_type : String) :
    update_game_state s result_type true = update_game_state s ("ball") true
    ∧ (s.balls < 3 →
        (update_game_state s ("hit") true).score_player = s.player_score
        ∧ (update_game_state s ("hit") true).score_cpu = s.cpu_score) := by
  constructor
  · rfl
  · intro h
    rw [update_game_state_is_ball, if_neg (by omega)]
    exact ⟨rfl, rfl⟩

/-- Witness for C10: a hit label with `is_ball` set scores nothing at an
empty count. -/
theorem update_game_state_is_ball_precedence_w :
    (update_game_state ⟨0, 0, 0, 1, 0, 0, true⟩ ("hit") true).score_player = 0
    ∧ (update_game_state ⟨0, 0, 0, 1, 0, 0, true⟩ ("hit") true).score_cpu = 0 :=
  (update_game_state_is_ball_precedence ⟨0, 0, 0, 1, 0, 0, true⟩ ("hit")).2 (by decide)

/-- Evaluation of `calculate_result` on a ball-region pitch. -/
theorem calculate_result_ball_region (actual_pitch : Pitch) (batter_guess : Guess) (r : ℚ)
    (hz : ¬ actual_pitch.zone ≤ 9) :
    calculate_result actual_pitch batter_guess r =
      if r < get_ball_swing_chance actual_pitch batter_guess then (("swing_miss"), false)
      else (("ball"), true) := by
  simp only [calculate_result]
  rw [if_pos hz]

/-- Evaluation of `calculate_result` on a strike-zone pitch. -/
theorem calculate_result_strike_zone (actual_pitch : Pitch) (batter_guess : Guess) (r : ℚ)
    (hz : actual_pitch.zone ≤ 9) :
    calculate_result actual_pitch batter_guess r =
      if r < hitChance actual_pitch batter_guess then (("hit"), false)
      else if r < hitChance actual_pitch batter_guess + 2/10 then (("foul"), false)
      else (("strike"), false) := by
  simp only [calculate_result]
  rw [if_neg (not_not_intro hz)]

/-- C4: on a strike-zone pitch the hit probability is the base 0.1 plus
additive bonuses of 0.4 for a zone match, 0.3 for a kind match, 0.2 for both
at once, and an extra 0.1 for a changeup kind match, capped at 0.9; the one
draw `r` then falls into three contiguous bands in order: hit on `[0, h)`,
foul on the width-0.2 band immediately above `h`, strike on the remainder. -/
theorem calculate_result_bands (p : Pitch) (g : Guess) (r : ℚ) (hz : p.zone ≤ 9) :
    hitChance p g
        = min ((1 : ℚ)/10 + (if zoneMatch p g then (4 : ℚ)/10 else 0)
            + (if typeMatch p g then (3 : ℚ)/10 else 0)
            + (if zoneMatch p g && typeMatch p g then (2 : ℚ)/10 else 0)
            + (if p.type == PitchType.changeup && typeMatch p g then (1 : ℚ)/10 else 0))
          (9/10)
    ∧ hitChance p g ≤ 9/10
    ∧ ((calculate_result p g r).1 = "hit" ↔ r < hitChance p g)
    ∧ ((calculate_result p g r).1 = "foul" ↔
        hitChance p g ≤ r ∧ r < hitChance p g + 2/10)
    ∧ ((calculate_result p g r).1 = "strike" ↔ hitChance p g + 2/10 ≤ r) := by
  have hsum : hitChance p g
      = min ((1 : ℚ)/10 + (if zoneMatch p g then (4 : ℚ)/10 else 0)
          + (if typeMatch p g then (3 : ℚ)/10 else 0)
          + (if zoneMatch p g && typeMatch p g then (2 : ℚ)/10 else 0)
          + (if p.type == PitchType.changeup && typeMatch p g then (1 : ℚ)/10 else 0))
        (9/10) := by
    unfold hitChance calculate_hit_chance
    cases h1 : zoneMatch p g <;> cases h2 : typeMatch p g <;>
      cases h3 : (p.type == PitchType.changeup) <;> simp [h1, h2, h3]
  have hcap : hitChance p g ≤ 9/10 := by
    rw [hsum]; exact min_le_right _ _
  refine ⟨hsum, hcap, ?_, ?_, ?_⟩ <;> rw [calculate_result_strike_zone p g r hz]
  · by_cases h1 : r < hitChance p g
    · rw [if_pos h1]; simpa using h1
    · rw [if_neg h1]
      by_cases h2 : r < hitChance p g + 2/10
      · rw [if_pos h2]; exact iff_of_false (by decide) h1
      · rw [if_neg h2]; exact iff_of_false (by decide) h1
  · by_cases h1 : r < hitChance p g
    · rw [if_pos h1]
      exact iff_of_false (by decide) (fun hc => absurd hc.1 (not_le.mpr h1))
    · rw [if_neg h1]
      by_cases h2 : r < hitChance p g + 2/10
      · rw [if_pos h2]; exact iff_of_true rfl ⟨le_of_not_lt h1, h2⟩
      · rw [if_neg h2]; exact iff_of_false (by decide) (fun hc => absurd hc.2 h2)
  · by_cases h1 : r < hitChance p g
    · rw [if_pos h1]
      exact iff_of_false (by decide) (fun hc => by linarith)
    · rw [if_neg h1]
      by_cases h2 : r < hitChance p g + 2/10
      · rw [if_pos h2]; exact iff_of_false (by decide) (fun hc => by linarith)
      · rw [if_neg h2]; exact iff_of_true rfl (le_of_not_lt h2)

/-- Witness for C4: an exact zone-and-kind match capped at 0.9 turns the
draw 0.5 into a hit. -/
theorem calculate_result_bands_w :
    (calculate_result ⟨PitchType.fastball, 5⟩ ⟨GuessType.fastball, 5⟩ (1/2)).1 = "hit" := by
  have h := calculate_result_bands ⟨PitchType.fastball, 5⟩ ⟨GuessType.fastball, 5⟩ (1/2)
    (by decide)
  have hz : zoneMatch ⟨PitchType.fastball, 5⟩ ⟨GuessType.fastball, 5⟩ = true := by decide
  have ht : typeMatch ⟨PitchType.fastball, 5⟩ ⟨GuessType.fastball, 5⟩ = true := by decide
  have hcc : ((⟨PitchType.fastball, 5⟩ : Pitch).type == PitchType.changeup) = false := by
    decide
  refine h.2.2.1.mpr ?_
  rw [h.1]
  norm_num [hz, ht, hcc, min_def]

/-- C9: a ball-region pitch resolves only to ball or swing_miss, and a
strike-zone pitch resolves only to hit, foul or strike (never swing_miss). -/
theorem calculate_result_regions (p : Pitch) (g : Guess) (r : ℚ) :
    (9 < p.zone →
      (calculate_result p g r).1 = "ball" ∨ (calculate_result p g r).1 = "swing_miss")
    ∧ (p.zone ≤ 9 →
      (calculate_result p g r).1 = "hit" ∨ (calculate_result p g r).1 = "foul"
        ∨ (calculate_result p g r).1 = "strike") := by
  constructor
  · intro hz
    rw [calculate_result_ball_region p g r (by omega)]
    by_cases h : r < get_ball_swing_chance p g
    · rw [if_pos h]; right; rfl
    · rw [if_neg h]; left; rfl
  · intro hz
    rw [calculate_result_strike_zone p g r hz]
    by_cases h1 : r < hitChance p g
    · rw [if_pos h1]; left; rfl
    · rw [if_neg h1]
      by_cases h2 : r < hitChance p g + 2/10
      · rw [if_pos h2]; right; left; rfl
      · rw [if_neg h2]; right; right; rfl

/-- Witness for C9 at zone 12 (ball region) and zone 5 (strike zone). -/
theorem calculate_result_regions_w :
    ((calculate_result ⟨PitchType.fastball, 12⟩ ⟨GuessType.fastball, 5⟩ (1/2)).1 = "ball"
      ∨ (calculate_result ⟨PitchType.fastball, 12⟩ ⟨GuessType.fastball, 5⟩ (1/2)).1
          = "swing_miss")
    ∧ ((calculate_result ⟨PitchType.fastball, 5⟩ ⟨GuessType.fastball, 5⟩ (1/2)).1 = "hit"
      ∨ (calculate_result ⟨PitchType.fastball, 5⟩ ⟨GuessType.fastball, 5⟩ (1/2)).1 = "foul"
      ∨ (calculate_result ⟨PitchType.fastball, 5⟩ ⟨GuessType.fastball, 5⟩ (1/2)).1
          = "strike") :=
  ⟨(calculate_result_regions ⟨PitchType.fastball, 12⟩ ⟨GuessType.fastball, 5⟩ (1/2)).1
      (by decide),
   (calculate_result_regions ⟨PitchType.fastball, 5⟩ ⟨GuessType.fastball, 5⟩ (1/2)).2
      (by decide)⟩

/-- C1 (evaluation at the failing input): asking for the parameters of a
version id absent from the store answers 200 with the hard-coded default
tree — the router's 404 branch tests the truthiness of the returned dict,
which is never empty — instead of failing with NotFound as the spec (and the
repository's own `test_error_cases`) require. -/
theorem get_parameters_missing_version_ok :
    get_parameters_by_version [default_version_record] ("nonexistent")
      = Except.ok (("nonexistent"), get_default_parameters) := rfl

/-- One element of the second bulk update applied to one element of the
first: deactivate-then-conditionally-activate sets `is_active` to exactly
"my version is the requested one". -/
theorem activate_step (v : String) (pv : ParamVersion) :
    (fun q => if q.version == v then { q with is_active := true } else q)
      ((fun q => if q.is_active then { q with is_active := false } else q) pv)
    = { pv with is_active := pv.version == v } := by
  obtain ⟨ver, pars, desc, act, cb⟩ := pv
  cases act <;> cases h2 : (ver == v) <;> simp [h2]

/-- The two bulk updates of `activate_version` compose to one map. -/
theorem activate_db2_eq (db : Store) (v : String) :
    (db.map (fun pv => if pv.is_active then { pv with is_active := false } else pv)).map
        (fun pv => if pv.version == v then { pv with is_active := true } else pv)
      = db.map (fun pv => ({ pv with is_active := pv.version == v } : ParamVersion)) := by
  rw [List.map_map]
  congr 1
  funext pv
  exact activate_step v pv

/-- A map that preserves `version` preserves the number of rows matching a
version filter. -/
theorem filter_version_length_map (db : Store) (v : String) (f : ParamVersion → ParamVersion)
    (hf : ∀ pv, (f pv).version = pv.version) :
    ((db.map f).filter (fun pv => pv.version == v)).length
      = (db.filter (fun pv => pv.version == v)).length := by
  induction db with
  | nil => rfl
  | cons a l ih =>
      simp only [List.map_cons, List.filter_cons, hf a]
      by_cases h : (a.version == v) = true
      · simp [h, ih]
      · simp [h, ih]

/-- The first bulk update of `activate_version` preserves `version`. -/
theorem deactivate_preserves_version (pv : ParamVersion) :
    ((if pv.is_active then { pv with is_active := false } else pv) : ParamVersion).version
      = pv.version := by
  by_cases h : pv.is_active <;> simp [h]

/-- After the composed update, the active rows are exactly the rows matching
the requested version. -/
theorem filter_active_map (db : Store) (v : String) :
    ((db.map (fun pv => ({ pv with is_active := pv.version == v } : ParamVersion))).filter
        (fun pv => pv.is_active)).map (fun pv => pv.version)
      = (db.filter (fun pv => pv.version == v)).map (fun pv => pv.version) := by
  induction db with
  | nil => rfl
  | cons a l ih =>
      simp only [List.map_cons, List.filter_cons]
      by_cases h : (a.version == v) = true
      · simp [h, ih]
      · simp [h, ih]

/-- With `version` a primary key, the rows matching an existing version id
form exactly the one-element list. -/
theorem filter_version_unique (v : String) :
    ∀ (db : Store), (db.map (fun pv => pv.version)).Nodup →
      ∀ pv0, pv0 ∈ db → pv0.version = v →
      db.filter (fun pv => pv.version == v) = [pv0] := by
  intro db
  induction db with
  | nil => intro _ pv0 hmem _; exact absurd hmem (List.not_mem_nil pv0)
  | cons a l ih =>
      intro hnd pv0 hmem hv
      obtain ⟨hna, hndl⟩ := List.nodup_cons.mp hnd
      rcases List.mem_cons.mp hmem with rfl | hmem'
      · rw [List.filter_cons_of_pos (by simp [hv])]
        have hnil : l.filter (fun pv => pv.version == v) = [] := by
          rw [List.filter_eq_nil_iff]
          intro x hx hxv
          refine hna ?_
          show pv0.version ∈ List.map (fun pv => pv.version) l
          rw [hv, ← beq_iff_eq.mp hxv]
          exact List.mem_map_of_mem (fun pv => pv.version) hx
        rw [hnil]
      · have hav : ¬ ((a.version == v) = true) := by
          intro hc
          refine hna ?_
          show a.version ∈ List.map (fun pv => pv.version) l
          rw [beq_iff_eq.mp hc, ← hv]
          exact List.mem_map_of_mem (fun pv => pv.version) hmem'
        rw [List.filter_cons_of_neg (by simpa using hav)]
        exact ih hndl pv0 hmem' hv

/-- C3: with `version` the primary key, `activate_version` fails with 404
(leaving the store unchanged) exactly when no row carries the requested id;
on success exactly one row of the whole store is active afterwards, namely
the requested id, and activating the same id again returns the same store. -/
theorem activate_version_spec (db : Store) (v : String)
    (hnd : (db.map (fun pv => pv.version)).Nodup) :
    ((∀ pv ∈ db, pv.version ≠ v) → activate_version db v = Except.error 404)
    ∧ (∀ db2, activate_version db v = Except.ok db2 →
        ((db2.filter (fun pv => pv.is_active)).map (fun pv => pv.version) = [v])
        ∧ activate_version db2 v = Except.ok db2) := by
  constructor
  · intro hnone
    have hcnt : ((db.map
        (fun pv => if pv.is_active then { pv with is_active := false } else pv)).filter
          (fun pv => pv.version == v)).length = 0 := by
      rw [filter_version_length_map db v _ deactivate_preserves_version]
      have hnil : db.filter (fun pv => pv.version == v) = [] := by
        rw [List.filter_eq_nil_iff]
        intro x hx hxv
        exact hnone x hx (beq_iff_eq.mp hxv)
      rw [hnil]
      rfl
    simp only [activate_version]
    rw [if_pos hcnt]
  · intro db2 hok
    simp only [activate_version] at hok
    by_cases hz : ((db.map
        (fun pv => if pv.is_active then { pv with is_active := false } else pv)).filter
          (fun pv => pv.version == v)).length = 0
    · rw [if_pos hz] at hok
      exact Except.noConfusion hok
    · rw [if_neg hz] at hok
      injection hok with hok
      subst hok
      rw [activate_db2_eq]
      have hex : ∃ pv0, pv0 ∈ db ∧ pv0.version = v := by
        rw [filter_version_length_map db v _ deactivate_preserves_version] at hz
        have hne : db.filter (fun pv => pv.version == v) ≠ [] := by
          intro hc
          exact hz (by rw [hc]; rfl)
        obtain ⟨x, hx⟩ := List.exists_mem_of_ne_nil _ hne
        obtain ⟨hx1, hx2⟩ := List.mem_filter.mp hx
        exact ⟨x, hx1, beq_iff_eq.mp hx2⟩
      obtain ⟨pv0, hmem, hv⟩ := hex
      have huniq := filter_version_unique v db hnd pv0 hmem hv
      constructor
      · rw [filter_active_map, huniq]
        simp [hv]
      · simp only [activate_version]
        rw [activate_db2_eq]
        have hcomp : (db.map
              (fun pv => ({ pv with is_active := pv.version == v } : ParamVersion))).map
              (fun pv => ({ pv with is_active := pv.version == v } : ParamVersion))
            = db.map (fun pv => ({ pv with is_active := pv.version == v } : ParamVersion)) := by
          rw [List.map_map]
          congr 1
        have hcnt2 : (((db.map
              (fun pv => ({ pv with is_active := pv.version == v } : ParamVersion))).map
              (fun pv => if pv.is_active then { pv with is_active := false } else pv)).filter
                (fun pv => pv.version == v)).length
            = (db.filter (fun pv => pv.version == v)).length := by
          rw [filter_version_length_map _ v _ deactivate_preserves_version]
          exact filter_version_length_map db v
            (fun pv => ({ pv with is_active := pv.version == v } : ParamVersion))
            (fun pv => rfl)
        have hne2 : ¬ (((db.map
              (fun pv => ({ pv with is_active := pv.version == v } : ParamVersion))).map
              (fun pv => if pv.is_active then { pv with is_active := false } else pv)).filter
                (fun pv => pv.version == v)).length = 0 := by
          rw [hcnt2, huniq]
          simp
        rw [if_neg hne2, hcomp]

/-- Witness for C3: activating the inactive second version of a two-version
store yields exactly one active version, the requested one, and activating
it again returns the same store. -/
theorem activate_version_spec_w :
    ((([⟨("1.0.0"), Json.obj [], (""), false, ("system")⟩,
        ⟨("v2"), Json.obj [], (""), true, ("admin")⟩] : Store).filter
        (fun pv => pv.is_active)).map (fun pv => pv.version) = [("v2")])
    ∧ activate_version [⟨("1.0.0"), Json.obj [], (""), false, ("system")⟩,
        ⟨("v2"), Json.obj [], (""), true, ("admin")⟩] ("v2")
      = Except.ok [⟨("1.0.0"), Json.obj [], (""), false, ("system")⟩,
        ⟨("v2"), Json.obj [], (""), true, ("admin")⟩] :=
  (activate_version_spec [⟨("1.0.0"), Json.obj [], (""), true, ("system")⟩,
      ⟨("v2"), Json.obj [], (""), false, ("admin")⟩] ("v2") (by decide)).2
    [⟨("1.0.0"), Json.obj [], (""), false, ("system")⟩,
     ⟨("v2"), Json.obj [], (""), true, ("admin")⟩] (by rfl)

end BBL
